import Mathlib

/-!
  Verification development for the tigera operator excerpt.

  The Go sources are shallowly embedded: Kubernetes objects become plain
  Lean structures, each reconciler becomes a pure function from an
  environment (the outcome of every cluster read it performs, in program
  order) to an output trace (returned result, returned error, status
  actions, applied components, CR status writes), and each renderer
  becomes a pure function from its Config to lists of objects.
-/

/-! ## Kubernetes error model

  Mirrors the distinction the reconcilers draw via
  `k8s.io/apimachinery/pkg/api/errors.IsNotFound`. The carried string is
  what Go's `err.Error()` would return. -/

inductive KError where
  | notFound (msg : String)
  | other (msg : String)
deriving DecidableEq

def KError.isNotFound : KError → Bool
  | .notFound _ => true
  | .other _ => false

def KError.message : KError → String
  | .notFound m => m
  | .other m => m

/-- Result of one client/utils call: either a value or a Kubernetes error. -/
abbrev KResult (α : Type) := Except KError α

/-! ## Kubernetes object model (the fields the embedded sources read or set) -/

structure LocalObjectReference where
  name : String
deriving DecidableEq

/-- Entry of `ServiceAccount.Secrets` (`corev1.ObjectReference`). -/
structure ObjectReference where
  name : String
deriving DecidableEq

/-- `corev1.Secret`: `nspace` mirrors `ObjectMeta.Namespace`
  (`namespace` is a Lean keyword); `data` values stand for the byte
  strings of `Data`. -/
structure KSecret where
  name : String
  nspace : String := ""
  data : List (String × String) := []
deriving DecidableEq

structure KConfigMap where
  name : String
  nspace : String := ""
  data : List (String × String) := []
deriving DecidableEq

structure KServiceAccount where
  name : String
  nspace : String := ""
  secrets : List ObjectReference := []
deriving DecidableEq

structure KNamespace where
  name : String
  labels : List (String × String) := []
deriving DecidableEq

structure Toleration where
  key : String := ""
  effect : String := ""
  operator : String := ""
  value : String := ""
deriving DecidableEq

structure ConfigMapKeySelector where
  name : String
  key : String
deriving DecidableEq

structure EnvVarSource where
  configMapKeyRef : Option ConfigMapKeySelector := none
deriving DecidableEq

structure EnvVar where
  name : String
  value : String := ""
  valueFrom : Option EnvVarSource := none
deriving DecidableEq

structure VolumeMount where
  name : String
  mountPath : String
  readOnly : Bool := false
deriving DecidableEq

inductive VolumeSource where
  | hostPath (path : String) (hostPathType : String)
  | configMapVol (name : String) (items : List (String × String))
  | secretVol (secretName : String) (items : List (String × String)) (optional : Option Bool)
  | emptyDir (sizeLimit : Option String)
deriving DecidableEq

structure KVolume where
  name : String
  source : VolumeSource
deriving DecidableEq

structure HTTPGetAction where
  path : String
  port : Nat
  scheme : String
deriving DecidableEq

structure ExecAction where
  command : List String
deriving DecidableEq

structure Probe where
  httpGet : Option HTTPGetAction := none
  exec : Option ExecAction := none
  initialDelaySeconds : Nat := 0
  periodSeconds : Nat := 0
  failureThreshold : Nat := 0
deriving DecidableEq

/-- `corev1.ResourceRequirements` with quantities kept as their source strings. -/
structure ResourceRequirements where
  limits : List (String × String) := []
  requests : List (String × String) := []
deriving DecidableEq

structure KContainer where
  name : String
  image : String
  args : List String := []
  env : List EnvVar := []
  resources : Option ResourceRequirements := none
  volumeMounts : List VolumeMount := []
  livenessProbe : Option Probe := none
  readinessProbe : Option Probe := none
deriving DecidableEq

structure KPodSpec where
  nodeSelector : List (String × String) := []
  serviceAccountName : String := ""
  tolerations : List Toleration := []
  imagePullSecrets : List LocalObjectReference := []
  containers : List KContainer := []
  volumes : List KVolume := []
deriving DecidableEq

structure PodTemplateSpec where
  name : String := ""
  nspace : String := ""
  labels : List (String × String) := []
  annotations : List (String × String) := []
  spec : KPodSpec
deriving DecidableEq

structure KDeployment where
  apiVersion : String := "apps/v1"
  name : String
  nspace : String
  labels : List (String × String) := []
  replicas : Nat := 1
  strategyType : String := ""
  selectorMatchLabels : List (String × String) := []
  template : PodTemplateSpec
deriving DecidableEq

structure ServicePort where
  name : String
  port : Nat
  protocol : String
  targetPort : Nat
deriving DecidableEq

structure KService where
  apiVersion : String := "v1"
  name : String
  nspace : String
  ports : List ServicePort := []
  selector : List (String × String) := []
deriving DecidableEq

structure KAPIService where
  apiVersion : String := "apiregistration.k8s.io/v1beta1"
  name : String
  group : String
  versionPriority : Nat
  groupPriorityMinimum : Nat
  serviceName : String
  serviceNamespace : String
  version : String
  insecureSkipTLSVerify : Bool
deriving DecidableEq

structure PolicyRule where
  apiGroups : List String := []
  resources : List String := []
  verbs : List String := []
deriving DecidableEq

structure RbacSubject where
  kind : String
  name : String
  nspace : String := ""
  apiGroup : String := ""
deriving DecidableEq

structure RoleRef where
  kind : String
  name : String
  apiGroup : String
deriving DecidableEq

structure KClusterRole where
  apiVersion : String := "rbac.authorization.k8s.io/v1beta1"
  name : String
  rules : List PolicyRule := []
deriving DecidableEq

structure KClusterRoleBinding where
  apiVersion : String := "rbac.authorization.k8s.io/v1beta1"
  name : String
  subjects : List RbacSubject := []
  roleRef : RoleRef
deriving DecidableEq

structure KRoleBinding where
  apiVersion : String := "rbac.authorization.k8s.io/v1beta1"
  name : String
  nspace : String
  subjects : List RbacSubject := []
  roleRef : RoleRef
deriving DecidableEq

/-- Minimal CronJob record: only identity is needed (it occurs solely on
  the runtimesecurity delete list). -/
structure KCronJob where
  name : String
  nspace : String
deriving DecidableEq

/-- The sum of the concrete object kinds produced by the embedded
  renderers (`client.Object` / `runtime.Object` in Go). -/
inductive KObject where
  | namespaceObj (n : KNamespace)
  | secretObj (s : KSecret)
  | configMapObj (c : KConfigMap)
  | serviceAccountObj (s : KServiceAccount)
  | deploymentObj (d : KDeployment)
  | serviceObj (s : KService)
  | apiServiceObj (s : KAPIService)
  | clusterRoleObj (r : KClusterRole)
  | clusterRoleBindingObj (r : KClusterRoleBinding)
  | roleBindingObj (r : KRoleBinding)
  | cronJobObj (c : KCronJob)
deriving DecidableEq

/-- The metadata namespace of an object; empty for cluster-scoped kinds. -/
def KObject.objNamespace : KObject → String
  | .namespaceObj _ => ""
  | .secretObj s => s.nspace
  | .configMapObj c => c.nspace
  | .serviceAccountObj s => s.nspace
  | .deploymentObj d => d.nspace
  | .serviceObj s => s.nspace
  | .apiServiceObj _ => ""
  | .clusterRoleObj _ => ""
  | .clusterRoleBindingObj _ => ""
  | .roleBindingObj r => r.nspace
  | .cronJobObj c => c.nspace

/-! ## Shared constants -/

/-- `operatorv1.TigeraSecureEnterprise` product variant. -/
def TigeraSecureEnterprise : String := "TigeraSecureEnterprise"

/-- `operatorv1.TigeraStatusReady`. -/
def TigeraStatusReady : String := "Ready"

/-- Modelled from the spec: `common.OperatorNamespace()` comes from a
  package that is not among the provided sources; the operator's own
  namespace. Its exact value is immaterial to the claims. -/
def OperatorNamespace : String := "tigera-operator"

/-! ## pkg/render/common/cloudconfig -/

def CloudConfigConfigMapName : String := "tigera-secure-cloud-config"

structure CloudConfig where
  tenantId : String
  tenantName : String
  externalESDomain : String
  externalKibanaDomain : String
  enableMTLS : Bool
deriving DecidableEq

def NewCloudConfig (tenantId tenantName externalESDomain externalKibanaDomain : String)
    (enableMTLS : Bool) : CloudConfig :=
  { tenantId := tenantId
    tenantName := tenantName
    externalESDomain := externalESDomain
    externalKibanaDomain := externalKibanaDomain
    enableMTLS := enableMTLS }

/-- Go's map read `configMap.Data[k]`: the zero value `""` when absent. -/
def KConfigMap.dataGet (cm : KConfigMap) (k : String) : String :=
  (cm.data.lookup k).getD ""

/-- Go `strconv.FormatBool`. -/
def strconvFormatBool (b : Bool) : String :=
  if b then "true" else "false"

/-- Go `strconv.ParseBool`: accepts 1, t, T, TRUE, true, True, 0, f, F,
  FALSE, false, False. -/
def strconvParseBool (s : String) : Except String Bool :=
  if s = "1" ∨ s = "t" ∨ s = "T" ∨ s = "TRUE" ∨ s = "true" ∨ s = "True" then .ok true
  else if s = "0" ∨ s = "f" ∨ s = "F" ∨ s = "FALSE" ∨ s = "false" ∨ s = "False" then .ok false
  else .error ("parsing " ++ s ++ ": invalid syntax")

def NewCloudConfigFromConfigMap (configMap : KConfigMap) : Except String CloudConfig :=
  if configMap.dataGet "tenantId" = "" then .error "'tenantId' is not set"
  else if configMap.dataGet "tenantName" = "" then .error "'tenantName' is not set"
  else if configMap.dataGet "externalESDomain" = "" then .error "'externalESDomain' is not set"
  else if configMap.dataGet "externalKibanaDomain" = "" then .error "'externalKibanaDomain' is not set"
  else
    match (if configMap.dataGet "enableMTLS" = "" then Except.ok false
           else strconvParseBool (configMap.dataGet "enableMTLS")) with
    | .error e => .error ("'enableMTLS' must be a bool: " ++ e)
    | .ok enableMTLS =>
      .ok (NewCloudConfig (configMap.dataGet "tenantId") (configMap.dataGet "tenantName")
        (configMap.dataGet "externalESDomain") (configMap.dataGet "externalKibanaDomain")
        enableMTLS)

def CloudConfig.ConfigMap (c : CloudConfig) : KConfigMap :=
  { name := CloudConfigConfigMapName
    nspace := OperatorNamespace
    data := [("tenantId", c.tenantId),
             ("tenantName", c.tenantName),
             ("externalESDomain", c.externalESDomain),
             ("externalKibanaDomain", c.externalKibanaDomain),
             ("enableMTLS", strconvFormatBool c.enableMTLS)] }

/-! ## Reconciler effect model

  A reconcile pass is embedded as a pure function from an environment —
  the outcome of every cluster read / write the pass performs, listed in
  program order — to an output trace. -/

inductive StatusAction where
  | onCRFound
  | onCRNotFound
  | setDegraded (reason : String) (detail : String)
  | clearDegraded
deriving DecidableEq

/-- `reconcile.Result`, with `RequeueAfter` kept in seconds. -/
structure ReconcileResult where
  requeueAfterSeconds : Option Nat := none
deriving DecidableEq

structure ReconcileOutput where
  /-- The `reconcile.Result` returned. -/
  result : ReconcileResult
  /-- The `error` returned (`none` for nil). -/
  err : Option KError
  /-- Calls made on the status manager, in order. -/
  statusActions : List StatusAction
  /-- Indices of the rendered components passed to
    `CreateOrUpdateOrDelete` before returning. -/
  appliedComponents : List Nat
  /-- `Status.State` written through `client.Status().Update`, if reached. -/
  crStatusWritten : Option String
deriving DecidableEq

/-! ## Custom resources and shared inputs -/

structure ImageAssuranceSpec where
  apiProxyURL : String := ""
deriving DecidableEq

structure ImageAssuranceCR where
  spec : ImageAssuranceSpec := {}
deriving DecidableEq

structure RuntimeSecurityCR where
  deriving DecidableEq

structure AuthenticationCR where
  statusState : String := ""
deriving DecidableEq

/-- The fields of `operatorv1.InstallationSpec` the embedded code reads. -/
structure InstallationSpec where
  registry : String := ""
  kubernetesProvider : String := ""
  controlPlaneNodeSelector : List (String × String) := []
  controlPlaneTolerations : List Toleration := []
deriving DecidableEq

/-- A certificate as handed out by the certificate manager
  (`certificatemanagement.CertificateInterface`). -/
structure Certificate where
  name : String := ""
  pem : String := ""
deriving DecidableEq

/-- Trust bundle produced by `certificateManager.CreateTrustedBundle`. -/
structure TrustedBundle where
  certificates : List Certificate := []
deriving DecidableEq

/-- Modelled from the spec: `certificateManager.CreateTrustedBundle` comes
  from the certificate-manager package, which is not among the provided
  sources; per the spec a trust bundle is "an aggregated set of CA
  certificates mounted into workloads". -/
def CreateTrustedBundle (cert : Option Certificate) : TrustedBundle :=
  { certificates := cert.toList }

/-- Modelled from the spec: the trust-bundle ConfigMap helper
  (`TrustedBundle.ConfigMap(namespace)`) is not among the provided
  sources; it materialises the bundle as a ConfigMap in the given
  namespace. -/
def TrustedBundle.toConfigMap (b : TrustedBundle) (nspace : String) : KConfigMap :=
  { name := "tigera-ca-bundle"
    nspace := nspace
    data := [("ca-bundle.crt", String.intercalate "\n" (b.certificates.map (·.pem)))] }

/-- Modelled from the spec: `TrustedBundle.HashAnnotations` is not among
  the provided sources; pod-template annotations recording a digest of
  the bundle so pods roll when it changes. -/
def TrustedBundle.hashAnnotations (b : TrustedBundle) : List (String × String) :=
  [("hash.operator.tigera.io/tigera-ca-private", String.intercalate "\n" (b.certificates.map (·.pem)))]

/-- Modelled from the spec: `TrustedBundle.Volume` is not among the
  provided sources; the volume projecting the bundle ConfigMap. -/
def TrustedBundle.volume (_b : TrustedBundle) : KVolume :=
  { name := "tigera-ca-bundle", source := .configMapVol "tigera-ca-bundle" [] }

/-- Modelled from the spec: `TrustedBundle.VolumeMounts` is not among the
  provided sources; where the bundle is mounted for the given OS. -/
def TrustedBundle.volumeMounts (_b : TrustedBundle) (_osType : String) : List VolumeMount :=
  [{ name := "tigera-ca-bundle", mountPath := "/etc/pki/tls/certs", readOnly := true }]

/-- Modelled from the spec:
  `rcimageassurance.ConfigurationConfigMapName` comes from
  `pkg/render/common/imageassurance`, which is not among the provided
  sources; the name of the image-assurance configuration ConfigMap (the
  spec fixes only its keys). Its exact value is immaterial to the claims. -/
def ConfigurationConfigMapName : String := "tigera-image-assurance-config"

/-! ## ImageAssurance reconciler (src/unnamed/part_000) -/

/-- Environment of one `ReconcileImageAssurance.Reconcile` pass: the
  outcome of each cluster call, in the order the code makes them. -/
structure IAEnv where
  getImageAssurance : KResult ImageAssuranceCR
  getInstallation : KResult (String × InstallationSpec)
  getNetworkingPullSecrets : KResult (List KSecret)
  getConfigurationConfigMap : KResult KConfigMap
  certificateManagerCreate : KResult Unit
  /-- `certificateManager.GetCertificate` may succeed with a nil certificate. -/
  getInternalMgrSecret : KResult (Option Certificate)
  /-- Outcome of `getAPICertSecret` (validate + ensure TLS secret). -/
  getAPICertSecretResult : KResult KSecret
  /-- `c.Get` of the scanner API-access ServiceAccount inside `getAPIAccessToken`. -/
  getScannerServiceAccount : KResult KServiceAccount
  /-- `c.Get` of the token Secret named by the service account, by name. -/
  getSecretByName : String → KResult KSecret
  getImageSet : KResult Unit
  validateImageSet : KResult Unit
  getAuthentication : KResult AuthenticationCR
  getKeyValidatorConfig : KResult Unit
  applyImageSet : KResult Unit
  /-- `ch.CreateOrUpdateOrDelete` per component index (0 passthrough,
    1 imageassurance, 2 certificatemanagement). -/
  createOrUpdateOrDelete : Nat → KResult Unit
  isAvailable : Bool
  statusUpdate : KResult Unit

/-- `getAPIAccessToken` (src/unnamed/part_000 lines 374-396): fetch the
  service account; no listed secret means a nil token with nil error;
  otherwise fetch the first listed secret and return its "token" datum
  (nil when the key is absent). -/
def getAPIAccessToken (env : IAEnv) : KResult (Option String) :=
  match env.getScannerServiceAccount with
  | .error e => .error e
  | .ok sa =>
    match sa.secrets with
    | [] => .ok none
    | ref :: _ =>
      match env.getSecretByName ref.name with
      | .error e => .error e
      | .ok saSecret => .ok (saSecret.data.lookup "token")

/-- Tail of the ImageAssurance pass from `GetKeyValidatorConfig` onward.
  All prior successful steps contributed only `OnCRFound` to the status
  trace. -/
def iaReconcileFromKVC (env : IAEnv) : ReconcileOutput :=
  match env.getKeyValidatorConfig with
  | .error e =>
    { result := {}, err := some e
      statusActions := [.onCRFound, .setDegraded "Failed to process the authentication CR." e.message]
      appliedComponents := [], crStatusWritten := none }
  | .ok _ =>
  match env.applyImageSet with
  | .error e =>
    { result := {}, err := some e
      statusActions := [.onCRFound, .setDegraded "Error with images from ImageSet" e.message]
      appliedComponents := [], crStatusWritten := none }
  | .ok _ =>
  match env.createOrUpdateOrDelete 0 with
  | .error e =>
    { result := {}, err := some e
      statusActions := [.onCRFound, .setDegraded "Error creating / updating resource" e.message]
      appliedComponents := [], crStatusWritten := none }
  | .ok _ =>
  match env.createOrUpdateOrDelete 1 with
  | .error e =>
    { result := {}, err := some e
      statusActions := [.onCRFound, .setDegraded "Error creating / updating resource" e.message]
      appliedComponents := [0], crStatusWritten := none }
  | .ok _ =>
  match env.createOrUpdateOrDelete 2 with
  | .error e =>
    { result := {}, err := some e
      statusActions := [.onCRFound, .setDegraded "Error creating / updating resource" e.message]
      appliedComponents := [0, 1], crStatusWritten := none }
  | .ok _ =>
    if !env.isAvailable then
      { result := { requeueAfterSeconds := some 30 }, err := none
        statusActions := [.onCRFound, .clearDegraded]
        appliedComponents := [0, 1, 2], crStatusWritten := none }
    else
      { result := {}
        err := match env.statusUpdate with | .error e => some e | .ok _ => none
        statusActions := [.onCRFound, .clearDegraded]
        appliedComponents := [0, 1, 2], crStatusWritten := some TigeraStatusReady }

/-- The `authenticationCR != nil && Status.State != Ready` gate
  (src/unnamed/part_000 lines 283-286) and what follows. -/
def iaReconcileFromAuth (env : IAEnv) (authenticationCR : Option AuthenticationCR) :
    ReconcileOutput :=
  match authenticationCR with
  | some a =>
    if a.statusState ≠ TigeraStatusReady then
      { result := {}, err := none
        statusActions := [.onCRFound,
          .setDegraded "Authentication is not ready" ("authenticationCR status: " ++ a.statusState)]
        appliedComponents := [], crStatusWritten := none }
    else iaReconcileFromKVC env
  | none => iaReconcileFromKVC env

/-- `ReconcileImageAssurance.Reconcile` (src/unnamed/part_000 lines
  160-346), with each cluster call's outcome drawn from `env`. -/
def ReconcileImageAssurance (env : IAEnv) : ReconcileOutput :=
  match env.getImageAssurance with
  | .error e =>
    if e.isNotFound then
      { result := {}, err := none, statusActions := [.onCRNotFound]
        appliedComponents := [], crStatusWritten := none }
    else
      { result := {}, err := some e
        statusActions := [.setDegraded "Error querying for ImageAssurance" e.message]
        appliedComponents := [], crStatusWritten := none }
  | .ok ia =>
  match env.getInstallation with
  | .error e =>
    if e.isNotFound then
      { result := {}, err := none
        statusActions := [.onCRFound, .setDegraded "Installation not found" e.message]
        appliedComponents := [], crStatusWritten := none }
    else
      { result := {}, err := some e
        statusActions := [.onCRFound, .setDegraded "Error querying installation" e.message]
        appliedComponents := [], crStatusWritten := none }
  | .ok _ =>
  match env.getNetworkingPullSecrets with
  | .error e =>
    { result := {}, err := some e
      statusActions := [.onCRFound, .setDegraded "Error retrieving image pull secrets" e.message]
      appliedComponents := [], crStatusWritten := none }
  | .ok _ =>
  match env.getConfigurationConfigMap with
  | .error e =>
    if e.isNotFound then
      { result := {}, err := none
        statusActions := [.onCRFound,
          .setDegraded (ConfigurationConfigMapName ++ " ConfigMap not found") e.message]
        appliedComponents := [], crStatusWritten := none }
    else
      { result := {}, err := some e
        statusActions := [.onCRFound,
          .setDegraded "Error retrieving image assurance configuration" e.message]
        appliedComponents := [], crStatusWritten := none }
  | .ok _ =>
  if ia.spec.apiProxyURL = "" then
    { result := {}, err := some (.other "APIProxyURL cannot be nil or empty")
      statusActions := [.onCRFound,
        .setDegraded "APIProxyURL cannot be nil or empty" "APIProxyURL cannot be nil or empty"]
      appliedComponents := [], crStatusWritten := none }
  else
  match env.certificateManagerCreate with
  | .error e =>
    { result := {}, err := some e
      statusActions := [.onCRFound, .setDegraded "Unable to create the Tigera CA" e.message]
      appliedComponents := [], crStatusWritten := none }
  | .ok _ =>
  match env.getInternalMgrSecret with
  | .error e =>
    { result := {}, err := some e
      statusActions := [.onCRFound,
        .setDegraded "Error retrieving internal manager tls secret" e.message]
      appliedComponents := [], crStatusWritten := none }
  | .ok internalMgrSecret =>
  match internalMgrSecret with
  | none =>
    { result := {}, err := none
      statusActions := [.onCRFound,
        .setDegraded "Waiting for internal manager tls certificate to be available" ""]
      appliedComponents := [], crStatusWritten := none }
  | some _ =>
  match env.getAPICertSecretResult with
  | .error e =>
    { result := {}, err := some e
      statusActions := [.onCRFound,
        .setDegraded "Error in ensuring TLS certificate for image-assurance api" e.message]
      appliedComponents := [], crStatusWritten := none }
  | .ok _ =>
  match getAPIAccessToken env with
  | .error e =>
    { result := {}, err := some e
      statusActions := [.onCRFound,
        .setDegraded "Error in retrieving scanner API access token" e.message]
      appliedComponents := [], crStatusWritten := none }
  | .ok none =>
    { result := {}, err := none
      statusActions := [.onCRFound,
        .setDegraded "Waiting for scanner api access service account secret to be available" ""]
      appliedComponents := [], crStatusWritten := none }
  | .ok (some _) =>
  match env.getImageSet with
  | .error e =>
    { result := {}, err := some e
      statusActions := [.onCRFound, .setDegraded "Error retrieving image set" e.message]
      appliedComponents := [], crStatusWritten := none }
  | .ok _ =>
  match env.validateImageSet with
  | .error e =>
    { result := {}, err := some e
      statusActions := [.onCRFound, .setDegraded "Error validating image set" e.message]
      appliedComponents := [], crStatusWritten := none }
  | .ok _ =>
  match env.getAuthentication with
  | .error e =>
    if e.isNotFound then iaReconcileFromAuth env none
    else
      { result := {}, err := some e
        statusActions := [.onCRFound, .setDegraded "Error querying Authentication" e.message]
        appliedComponents := [], crStatusWritten := none }
  | .ok authenticationCR => iaReconcileFromAuth env (some authenticationCR)

/-! ## RuntimeSecurity reconciler (src/bundle/bundle-v1.5.2.Dockerfile,
  embedded Go section) -/

/-- Environment of one `ReconcileRuntimeSecurity.Reconcile` pass. -/
structure RSEnv where
  getRuntimeSecurity : KResult RuntimeSecurityCR
  getInstallation : KResult (String × InstallationSpec)
  getNetworkingPullSecrets : KResult (List KSecret)
  getElasticsearchClusterConfig : KResult Unit
  elasticsearchSecrets : KResult (List KSecret)
  certificateManagerCreate : KResult Unit
  getEsgwCertificate : KResult (Option Certificate)
  applyImageSet : KResult Unit
  createOrUpdateOrDelete : KResult Unit
  isAvailable : Bool
  statusUpdate : KResult Unit

/-- Modelled from the spec: `relasticsearch.PublicCertSecret` comes from a
  package not among the provided sources; the Elasticsearch gateway
  public certificate secret name. Its exact value is immaterial to the
  claims. -/
def PublicCertSecret : String := "tigera-secure-es-gateway-http-certs-public"

/-- `ReconcileRuntimeSecurity.Reconcile` (embedded Go lines 151-280),
  with each cluster call's outcome drawn from `env`. `SetDegraded` here
  goes through the deprecated adapter, which forwards reason and detail
  unchanged to the status manager. -/
def ReconcileRuntimeSecurity (env : RSEnv) : ReconcileOutput :=
  match env.getRuntimeSecurity with
  | .error e =>
    if e.isNotFound then
      { result := {}, err := none, statusActions := [.onCRNotFound]
        appliedComponents := [], crStatusWritten := none }
    else
      { result := {}, err := some e
        statusActions := [.setDegraded "Error querying for RuntimeSecurity" e.message]
        appliedComponents := [], crStatusWritten := none }
  | .ok _ =>
  match env.getInstallation with
  | .error e =>
    if e.isNotFound then
      { result := {}, err := none
        statusActions := [.onCRFound, .setDegraded "Installation not found" e.message]
        appliedComponents := [], crStatusWritten := none }
    else
      { result := {}, err := some e
        statusActions := [.onCRFound, .setDegraded "Error querying installation" e.message]
        appliedComponents := [], crStatusWritten := none }
  | .ok (variant, _) =>
  if variant ≠ TigeraSecureEnterprise then
    { result := {}, err := none
      statusActions := [.onCRFound,
        .setDegraded ("Waiting for network to be " ++ TigeraSecureEnterprise) ""]
      appliedComponents := [], crStatusWritten := none }
  else
  match env.getNetworkingPullSecrets with
  | .error e =>
    { result := {}, err := some e
      statusActions := [.onCRFound, .setDegraded "Error retrieving pull secrets" e.message]
      appliedComponents := [], crStatusWritten := none }
  | .ok _ =>
  match env.getElasticsearchClusterConfig with
  | .error e =>
    if e.isNotFound then
      { result := {}, err := none
        statusActions := [.onCRFound,
          .setDegraded "Elasticsearch cluster configuration is not available, waiting for it to become available" e.message]
        appliedComponents := [], crStatusWritten := none }
    else
      { result := {}, err := some e
        statusActions := [.onCRFound,
          .setDegraded "Failed to get the elasticsearch cluster configuration" e.message]
        appliedComponents := [], crStatusWritten := none }
  | .ok _ =>
  match env.elasticsearchSecrets with
  | .error e =>
    if e.isNotFound then
      { result := {}, err := none
        statusActions := [.onCRFound,
          .setDegraded "Elasticsearch secrets are not available yet, waiting until they become available" e.message]
        appliedComponents := [], crStatusWritten := none }
    else
      { result := {}, err := some e
        statusActions := [.onCRFound, .setDegraded "Failed to get Elasticsearch credentials" e.message]
        appliedComponents := [], crStatusWritten := none }
  | .ok _ =>
  match env.certificateManagerCreate with
  | .error e =>
    { result := {}, err := some e
      statusActions := [.onCRFound, .setDegraded "Unable to create the Tigera CA" e.message]
      appliedComponents := [], crStatusWritten := none }
  | .ok _ =>
  match env.getEsgwCertificate with
  | .error e =>
    { result := {}, err := some e
      statusActions := [.onCRFound,
        .setDegraded ("Failed to retrieve / validate  " ++ PublicCertSecret) e.message]
      appliedComponents := [], crStatusWritten := none }
  | .ok none =>
    { result := {}, err := none
      statusActions := [.onCRFound,
        .setDegraded "Elasticsearch gateway certificate are not available yet, waiting until they become available" ""]
      appliedComponents := [], crStatusWritten := none }
  | .ok (some _) =>
  match env.applyImageSet with
  | .error e =>
    { result := {}, err := some e
      statusActions := [.onCRFound, .setDegraded "Error with images from ImageSet" e.message]
      appliedComponents := [], crStatusWritten := none }
  | .ok _ =>
  match env.createOrUpdateOrDelete with
  | .error e =>
    { result := {}, err := some e
      statusActions := [.onCRFound, .setDegraded "Error creating / updating resource" e.message]
      appliedComponents := [], crStatusWritten := none }
  | .ok _ =>
    if !env.isAvailable then
      { result := { requeueAfterSeconds := some 30 }, err := none
        statusActions := [.onCRFound, .clearDegraded]
        appliedComponents := [0], crStatusWritten := none }
    else
      { result := {}
        err := match env.statusUpdate with | .error e => some e | .ok _ => none
        statusActions := [.onCRFound, .clearDegraded]
        appliedComponents := [0], crStatusWritten := some TigeraStatusReady }

/-! ## pkg/render/runtimesecurity (src/pkg/render/runtimesecurity/runtimesecurity.go) -/

namespace runtimesecurity

def NameSpaceRuntimeSecurity : String := "tigera-runtime-security"
def ElasticsearchSashaJobUserSecretName : String := "tigera-ee-sasha-elasticsearch-access"
def SashaName : String := "sasha"
def SashaVerifyAuthVolumeName : String := "cc-client-credentials"
def SashaVerifyAuthPath : String := "/var/run/calico-cloud/api"
def SashaVerifyAuthFile : String := "/var/run/calico-cloud/api/clientCredentials.yaml"
def ThreatIdName : String := "threat-id"
def SashaHistoryVolumeName : String := "history"
def SashaHistoryVolumeSizeLimit : String := "100Mi"
def SashaHistoryVolumeMountPath : String := "/history"
def SashaHistoryRetentionPeriod : String := "6h"

/-- `rmeta.OSTypeLinux`. -/
def OSTypeLinux : String := "linux"

/-- `relasticsearch.ClusterConfig`: only `ClusterName()` is read here. -/
structure ESClusterConfig where
  clusterName : String := ""
deriving DecidableEq

/-- `operatorv1.RuntimeSecuritySpec`: the deployment reads
  `Sasha.Resources` and `ThreatId.Resources`. -/
structure RuntimeSecuritySpec where
  sashaResources : ResourceRequirements := {}
  threatIdResources : ResourceRequirements := {}
deriving DecidableEq

/-- `runtimesecurity.Config` (required config plus the calculated
  internal image fields). -/
structure Config where
  pullSecrets : List KSecret := []
  installation : InstallationSpec := {}
  osType : String := OSTypeLinux
  sashaESSecrets : List KSecret := []
  esClusterConfig : ESClusterConfig := {}
  esSecrets : List KSecret := []
  clusterDomain : String := ""
  trustedBundle : TrustedBundle := {}
  runtimeSecuritySpec : RuntimeSecuritySpec := {}
  sashaImage : String := ""
  threatIdImage : String := ""
deriving DecidableEq

/-- `render.PSSPrivileged` pod security standard. -/
def PSSPrivileged : String := "privileged"

/-- Modelled from the spec: `render.CreateNamespace` is not among the
  provided sources; it returns the Namespace object of the given name
  (the spec requires "placing the namespace first" in the create list). -/
def CreateNamespace (name : String) (_provider : String) (pss : String) : KObject :=
  .namespaceObj { name := name, labels := [("pod-security.kubernetes.io/enforce", pss)] }

/-- Modelled from the spec: `secret.CopyToNamespace` is not among the
  provided sources; it re-homes each secret into the target namespace. -/
def secretCopyToNamespace (nspace : String) (secrets : List KSecret) : List KSecret :=
  secrets.map fun s => { s with nspace := nspace }

/-- Modelled from the spec: `secret.ToRuntimeObjects` is not among the
  provided sources; it views each secret as a client object. -/
def secretsToRuntimeObjects (secrets : List KSecret) : List KObject :=
  secrets.map KObject.secretObj

/-- Modelled from the spec: `secret.GetReferenceList` is not among the
  provided sources; pull-secret references by name. -/
def secretGetReferenceList (secrets : List KSecret) : List LocalObjectReference :=
  secrets.map fun s => { name := s.name }

/-- Modelled from the spec: `relasticsearch.DecorateAnnotations` is not
  among the provided sources; it stamps the pod template with an
  annotation tied to the Elasticsearch configuration. -/
def DecorateAnnotations (t : PodTemplateSpec) (cc : ESClusterConfig)
    (_ss : List KSecret) : PodTemplateSpec :=
  { t with annotations :=
      t.annotations ++ [("hash.operator.tigera.io/elasticsearch-configmap", cc.clusterName)] }

/-- Modelled from the spec: `relasticsearch.ContainerDecorate` is not
  among the provided sources; it injects the Elasticsearch access
  environment into the container. -/
def ContainerDecorate (c : KContainer) (clusterName : String) (secretName : String)
    (clusterDomain : String) (_osType : String) : KContainer :=
  { c with env := c.env ++
      [{ name := "ELASTIC_INDEX_SUFFIX", value := clusterName },
       { name := "ELASTIC_USERNAME", value := secretName },
       { name := "ELASTIC_HOST", value := "tigera-secure-es-gateway-http.tigera-elasticsearch.svc." ++ clusterDomain }] }

/-- `component.SupportedOSType()`. -/
def SupportedOSType : String := OSTypeLinux

/-- `(c *component).sashaDeployment()`. -/
def sashaDeployment (c : Config) : KDeployment :=
  let envVars : List EnvVar :=
    [{ name := "SASHA_SECRETLOCATION", value := SashaVerifyAuthFile },
     { name := "SASHA_HISTORYDIR", value := SashaHistoryVolumeMountPath },
     { name := "SASHA_HISTORYRETENTION", value := SashaHistoryRetentionPeriod }]
  let rsSecretOptional := false
  let numReplica : Nat := 1
  let grpcProbe : Probe :=
    { exec := some { command := ["bin/grpc_health_probe-linux-amd64", "-addr", "127.0.0.1:50051"] }
      periodSeconds := 2
      failureThreshold := 6 }
  { apiVersion := "apps/v1"
    name := SashaName
    nspace := NameSpaceRuntimeSecurity
    labels := [("k8s-app", SashaName)]
    replicas := numReplica
    selectorMatchLabels := [("k8s-app", SashaName)]
    template := DecorateAnnotations
      { name := SashaName
        nspace := NameSpaceRuntimeSecurity
        labels := [("k8s-app", SashaName)]
        annotations := c.trustedBundle.hashAnnotations
        spec :=
          { nodeSelector := c.installation.controlPlaneNodeSelector
            tolerations := c.installation.controlPlaneTolerations
            volumes :=
              [{ name := SashaVerifyAuthVolumeName
                 source := .secretVol "tigera-calico-cloud-client-credentials" [] (some rsSecretOptional) },
               { name := SashaHistoryVolumeName
                 source := .emptyDir (some SashaHistoryVolumeSizeLimit) },
               c.trustedBundle.volume]
            containers :=
              [ContainerDecorate
                { name := SashaName
                  image := c.sashaImage
                  env := envVars
                  resources := some c.runtimeSecuritySpec.sashaResources
                  volumeMounts := c.trustedBundle.volumeMounts SupportedOSType ++
                    [{ name := SashaVerifyAuthVolumeName, mountPath := SashaVerifyAuthPath },
                     { name := SashaHistoryVolumeName, mountPath := SashaHistoryVolumeMountPath }] }
                c.esClusterConfig.clusterName
                ElasticsearchSashaJobUserSecretName
                c.clusterDomain
                c.osType,
               { name := ThreatIdName
                 image := c.threatIdImage
                 resources := some c.runtimeSecuritySpec.threatIdResources
                 livenessProbe := some grpcProbe
                 readinessProbe := some grpcProbe
                 volumeMounts :=
                   [{ name := SashaHistoryVolumeName, mountPath := SashaHistoryVolumeMountPath }] }]
            imagePullSecrets := secretGetReferenceList c.pullSecrets
            serviceAccountName := SashaName } }
      c.esClusterConfig c.esSecrets }

/-- `(c *component).sashaServiceAccount()`. -/
def sashaServiceAccount : KServiceAccount :=
  { name := SashaName, nspace := NameSpaceRuntimeSecurity }

/-- Modelled from the spec: `(c *component).sashaCronJob()` is not among
  the provided sources; per the spec the delete list decommissions
  "deprecated CronJobs" that earlier versions rendered. -/
def sashaCronJob : KCronJob :=
  { name := SashaName, nspace := NameSpaceRuntimeSecurity }

/-- Modelled from the spec: `(c *component).oldSashaServiceAccount()` is
  not among the provided sources; per the spec the delete list removes
  "ServiceAccounts being replaced". -/
def oldSashaServiceAccount : KServiceAccount :=
  { name := "tigera-ee-sasha", nspace := NameSpaceRuntimeSecurity }

/-- `(c *component).Objects()` (runtimesecurity.go lines 102-119). -/
def Objects (c : Config) : List KObject × List KObject :=
  let objs : List KObject :=
    [CreateNamespace NameSpaceRuntimeSecurity c.installation.kubernetesProvider PSSPrivileged]
  let objs := objs ++ secretsToRuntimeObjects (secretCopyToNamespace NameSpaceRuntimeSecurity c.pullSecrets)
  let objs := objs ++ [KObject.configMapObj (c.trustedBundle.toConfigMap NameSpaceRuntimeSecurity)]
  let objs :=
    if c.sashaESSecrets.length > 0 then
      objs ++ secretsToRuntimeObjects (secretCopyToNamespace NameSpaceRuntimeSecurity c.sashaESSecrets)
        ++ [KObject.serviceAccountObj sashaServiceAccount, KObject.deploymentObj (sashaDeployment c)]
    else objs
  let toDelete : List KObject :=
    [KObject.cronJobObj sashaCronJob, KObject.serviceAccountObj oldSashaServiceAccount]
  (objs, toDelete)

end runtimesecurity

/-! ## Manager cloud environment variables (src/unnamed/part_000, package render) -/

/-- Modelled from the spec:
  `rcimageassurance.ConfigurationConfigMapOrgIDKey` is not among the
  provided sources; per the spec the configuration config map carries a
  `dbOrgID` key. -/
def ConfigurationConfigMapOrgIDKey : String := "dbOrgID"

/-- Modelled from the spec: `rcimageassurance.ScannerCLITokenSecretName`
  is not among the provided sources; its exact value is immaterial to
  the claims. -/
def ScannerCLITokenSecretName : String := "tigera-image-assurance-scanner-cli-token"

/-- Modelled from the spec: `rcimageassurance.ScannerCLIDownloadURL` is
  not among the provided sources; its exact value is immaterial to the
  claims. -/
def ScannerCLIDownloadURL : String := "https://installer.calicocloud.io/bast-cli"

/-- Body of the sorted-keys loop of `setManagerCloudEnvs`
  (src/unnamed/part_000 lines 574-593): the environment variables
  contributed by one extra-env key, with the legacy `portalAPIURL` and
  `auth0OrgID` keys translated to their legacy variable names. `val` is
  the Go map read `ManagerExtraEnv[key]`. -/
def appendManagerExtraEnv (managerExtraEnv : List (String × String))
    (envs : List EnvVar) (key : String) : List EnvVar :=
  let val := (managerExtraEnv.lookup key).getD ""
  if key = "portalAPIURL" then
    envs ++ [{ name := "CNX_PORTAL_URL", value := val },
             { name := "ENABLE_PORTAL_SUPPORT", value := "true" }]
  else if key = "auth0OrgID" then
    envs ++ [{ name := "CNX_AUTH0_ORG_ID", value := val }]
  else
    envs ++ [{ name := key, value := val }]

/-- The fixed appends of `setManagerCloudEnvs` before the extra-env loop
  (src/unnamed/part_000 lines 542-563): the managed-clusters/licensing
  variables, plus the image-assurance block when
  `c.cfg.CloudResources.ImageAssuranceResources != nil`. -/
def managerCloudBaseEnvs (imageAssuranceEnabled : Bool) (envs : List EnvVar) : List EnvVar :=
  let envs := envs ++
    [{ name := "ENABLE_MANAGED_CLUSTERS_ONLY", value := "true" },
     { name := "LICENSE_EDITION", value := "cloudEdition" }]
  if imageAssuranceEnabled then
    envs ++
      [{ name := "ENABLE_IMAGE_ASSURANCE_SUPPORT", value := "true" },
       { name := "CNX_IMAGE_ASSURANCE_API_URL", value := "/bast/v1" },
       { name := "CNX_IMAGE_ASSURANCE_ORGANIZATION_ID"
         valueFrom :=
           some { configMapKeyRef := some ⟨ConfigurationConfigMapName, ConfigurationConfigMapOrgIDKey⟩ } },
       { name := "IMAGE_ASSURANCE_SCANNER_CLI_TOKEN_SECRET_NAME", value := ScannerCLITokenSecretName },
       { name := "IMAGE_ASSURANCE_SCANNER_CLI_DOWNLOAD_URL", value := ScannerCLIDownloadURL }]
  else envs

/-- `managerComponent.setManagerCloudEnvs` (src/unnamed/part_000 lines
  541-596). The package-global `ManagerExtraEnv` map is passed as
  `managerExtraEnv`, given by its (arbitrary) iteration sequence of
  key/value pairs; the code first collects the keys, sorts them
  alphabetically, and then appends each key's variables in that order,
  reading the value back from the map. -/
def setManagerCloudEnvs (imageAssuranceEnabled : Bool)
    (managerExtraEnv : List (String × String)) (envs : List EnvVar) : List EnvVar :=
  let sortedKeys := (managerExtraEnv.map Prod.fst).mergeSort (fun a b => decide (a ≤ b))
  sortedKeys.foldl (appendManagerExtraEnv managerExtraEnv)
    (managerCloudBaseEnvs imageAssuranceEnabled envs)

/-! ## APIServer renderer (src/unnamed/part_001, package render) -/

namespace render

def defaultAPIServerImageName : String := "tigera/apiserver"
def defaultQueryServerImageName : String := "tigera/queryserver"
def apiServerPort : Nat := 5443
def queryServerPort : Nat := 8080

/-- `operatorv1alpha1.Core` component override block for the API server. -/
structure APIServerComponentSpec where
  imageOverride : String := ""
  extraVolumeMounts : List VolumeMount := []
  extraVolumes : List KVolume := []
  tolerations : List Toleration := []
deriving DecidableEq

structure CoreComponents where
  apiServer : APIServerComponentSpec := {}
deriving DecidableEq

structure CoreSpec where
  variant : String := ""
  registry : String := ""
  version : String := ""
  imagePullSecretsRef : List LocalObjectReference := []
  components : CoreComponents := {}
deriving DecidableEq

/-- `operatorv1alpha1.Core` custom resource. -/
structure Core where
  spec : CoreSpec := {}
deriving DecidableEq

/-- Modelled from the spec: `setCustomVolumeMounts` is not among the
  provided sources; it merges administrator-supplied extra volume
  mounts after the defaults. -/
def setCustomVolumeMounts (mounts extras : List VolumeMount) : List VolumeMount :=
  mounts ++ extras

/-- Modelled from the spec: `setCustomVolumes` is not among the provided
  sources; it merges administrator-supplied extra volumes after the
  defaults. -/
def setCustomVolumes (volumes extras : List KVolume) : List KVolume :=
  volumes ++ extras

/-- Modelled from the spec: `setCustomTolerations` is not among the
  provided sources; it merges administrator-supplied tolerations after
  the defaults. -/
def setCustomTolerations (ts extras : List Toleration) : List Toleration :=
  ts ++ extras

/-- `tolerations(cr)`. -/
def tolerations (cr : Core) : List Toleration :=
  setCustomTolerations
    [{ key := "node-role.kubernetes.io/master", effect := "NoSchedule" }]
    cr.spec.components.apiServer.tolerations

/-- `apiServerContainer(cr)`. -/
def apiServerContainer (cr : Core) : KContainer :=
  let apiServerImage := cr.spec.registry ++ defaultAPIServerImageName ++ ":" ++ cr.spec.version
  let apiServerImage :=
    if cr.spec.components.apiServer.imageOverride.length > 0 then
      cr.spec.components.apiServer.imageOverride
    else apiServerImage
  let volumeMounts : List VolumeMount :=
    [{ name := "tigera-audit-logs", mountPath := "/var/log/calico/audit" },
     { name := "tigera-audit-policy", mountPath := "/etc/tigera/audit" }]
  let volumeMounts := setCustomVolumeMounts volumeMounts cr.spec.components.apiServer.extraVolumeMounts
  { name := "tigera-apiserver"
    image := apiServerImage
    args := ["--secure-port=" ++ toString apiServerPort,
             "--audit-policy-file=/etc/tigera/audit/policy.conf",
             "--audit-log-path=/var/log/calico/audit/tsee-audit.log"]
    env := [{ name := "DATASTORE_TYPE", value := "kubernetes" }]
    volumeMounts := volumeMounts
    livenessProbe := some
      { httpGet := some { path := "/version", port := apiServerPort, scheme := "HTTPS" }
        initialDelaySeconds := 90
        periodSeconds := 10 } }

/-- `queryServerContainer(cr)`. -/
def queryServerContainer (cr : Core) : KContainer :=
  let image := cr.spec.registry ++ defaultQueryServerImageName ++ ":" ++ cr.spec.version
  let image :=
    if cr.spec.components.apiServer.imageOverride.length > 0 then
      cr.spec.components.apiServer.imageOverride
    else image
  { name := "tigera-queryserver"
    image := image
    env := [{ name := "LOGLEVEL", value := "info" },
            { name := "DATASTORE_TYPE", value := "kubernetes" }]
    livenessProbe := some
      { httpGet := some { path := "/version", port := queryServerPort, scheme := "HTTPS" }
        initialDelaySeconds := 90
        periodSeconds := 10 } }

/-- `apiServerVolumes(cr)`. -/
def apiServerVolumes (cr : Core) : List KVolume :=
  let hostPathType := "DirectoryOrCreate"
  let volumes : List KVolume :=
    [{ name := "tigera-audit-logs", source := .hostPath "/var/log/calico/audit" hostPathType },
     { name := "tigera-audit-policy", source := .configMapVol "tigera-audit-policy" [("config", "policy.conf")] }]
  setCustomVolumes volumes cr.spec.components.apiServer.extraVolumes

/-- `apiServer(cr)`: the deployment containing the API and query servers. -/
def apiServer (cr : Core) : KDeployment :=
  let replicas : Nat := 1
  { apiVersion := "v1"
    name := "tigera-apiserver"
    nspace := "tigera-system"
    labels := [("apiserver", "true"), ("k8s-app", "tigera-apiserver")]
    replicas := replicas
    strategyType := "Recreate"
    selectorMatchLabels := [("apiserver", "true")]
    template :=
      { name := "tigera-apiserver"
        nspace := "tigera-system"
        labels := [("apiserver", "true"), ("k8s-app", "tigera-apiserver")]
        spec :=
          { nodeSelector := [("beta.kubernetes.io/os", "linux")]
            serviceAccountName := "tigera-apiserver"
            tolerations := tolerations cr
            imagePullSecrets := cr.spec.imagePullSecretsRef
            containers := [apiServerContainer cr, queryServerContainer cr]
            volumes := apiServerVolumes cr } } }

/-- The `defaultAuditPolicy` constant of `auditPolicyConfigMap`. -/
def defaultAuditPolicy : String :=
  "apiVersion: audit.k8s.io/v1beta1\nkind: Policy\nrules:\n- level: RequestResponse\n  omitStages:\n  - RequestReceived\n  verbs:\n  - create\n  - patch\n  - update\n  - delete\n  resources:\n  - group: projectcalico.org\n    resources:\n    - globalnetworkpolicies\n    - networkpolicies\n    - globalnetworksets\n    - tiers\n    - hostendpoints"

/-- `auditPolicyConfigMap(cr)`. -/
def auditPolicyConfigMap (_cr : Core) : KConfigMap :=
  { name := "tigera-audit-policy"
    nspace := "tigera-system"
    data := [("config", defaultAuditPolicy)] }

/-- `apiServerServiceAccount(cr)`. -/
def apiServerServiceAccount (_cr : Core) : KServiceAccount :=
  { name := "tigera-apiserver", nspace := "tigera-system" }

/-- `apiService(cr)`: registers the Tigera Secure APIs. -/
def apiService (_cr : Core) : KAPIService :=
  { name := "v3.projectcalico.org"
    group := "projectcalico.org"
    versionPriority := 200
    groupPriorityMinimum := 200
    serviceName := "tigera-api"
    serviceNamespace := "tigera-system"
    version := "v3"
    insecureSkipTLSVerify := true }

/-- `apiServerService(cr)`. -/
def apiServerService (_cr : Core) : KService :=
  { name := "tigera-api"
    nspace := "tigera-system"
    ports :=
      [{ name := "apiserver", port := 443, protocol := "TCP", targetPort := apiServerPort },
       { name := "queryserver", port := queryServerPort, protocol := "TCP", targetPort := queryServerPort }]
    selector := [("apiserver", "true")] }

/-- `tieredPolicyPassthruClusterRole(cr)`. -/
def tieredPolicyPassthruClusterRole (_cr : Core) : KClusterRole :=
  { name := "tigera-tiered-policy-passthrough"
    rules :=
      [{ apiGroups := ["projectcalico.org"]
         resources := ["networkpolicies", "globalnetworkpolicies"]
         verbs := ["*"] }] }

/-- `tieredPolicyPassthruClusterRolebinding(cr)`. -/
def tieredPolicyPassthruClusterRolebinding (_cr : Core) : KClusterRoleBinding :=
  { name := "tigera-tiered-policy-passthrough"
    subjects :=
      [{ kind := "Group", name := "system:authenticated", apiGroup := "rbac.authorization.k8s.io" },
       { kind := "Group", name := "system:unauthenticated", apiGroup := "rbac.authorization.k8s.io" }]
    roleRef :=
      { kind := "ClusterRole", name := "tigera-tiered-policy-passthrough"
        apiGroup := "rbac.authorization.k8s.io" } }

/-- `delegateAuthClusterRoleBinding(cr)`. -/
def delegateAuthClusterRoleBinding (_cr : Core) : KClusterRoleBinding :=
  { name := "tigera-apiserver-delegate-auth"
    subjects := [{ kind := "ServiceAccount", name := "tigera-apiserver", nspace := "tigera-system" }]
    roleRef :=
      { kind := "ClusterRole", name := "system:auth-delegator"
        apiGroup := "rbac.authorization.k8s.io" } }

/-- `authReaderRoleBinding(cr)`. -/
def authReaderRoleBinding (_cr : Core) : KRoleBinding :=
  { name := "tigera-auth-reader"
    nspace := "tigera-system"
    subjects := [{ kind := "ServiceAccount", name := "tigera-apiserver", nspace := "tigera-system" }]
    roleRef :=
      { kind := "Role", name := "extension-apiserver-authentication-reader"
        apiGroup := "rbac.authorization.k8s.io" } }

/-- `APIServer(cr)` (src/unnamed/part_001 lines 23-39): nil for
  non-enterprise variants, otherwise the nine objects in source order. -/
def APIServer (cr : Core) : Option (List KObject) :=
  if cr.spec.variant ≠ TigeraSecureEnterprise then none
  else some
    [.deploymentObj (apiServer cr),
     .configMapObj (auditPolicyConfigMap cr),
     .serviceAccountObj (apiServerServiceAccount cr),
     .apiServiceObj (apiService cr),
     .serviceObj (apiServerService cr),
     .clusterRoleObj (tieredPolicyPassthruClusterRole cr),
     .clusterRoleBindingObj (tieredPolicyPassthruClusterRolebinding cr),
     .clusterRoleBindingObj (delegateAuthClusterRoleBinding cr),
     .roleBindingObj (authReaderRoleBinding cr)]

end render

/-! ## Concrete environments for witnesses and counterexamples -/

/-- A fully healthy ImageAssurance pass: every read succeeds, the spec is
  valid, the scanner token exists, applies succeed, workloads available. -/
def iaEnvReady : IAEnv :=
  { getImageAssurance := .ok { spec := { apiProxyURL := "https://proxy.example" } }
    getInstallation := .ok (TigeraSecureEnterprise, {})
    getNetworkingPullSecrets := .ok []
    getConfigurationConfigMap := .ok
      { name := ConfigurationConfigMapName
        nspace := OperatorNamespace
        data := [("host", "some.domain.io"), ("name", "my-database"), ("port", "1234"),
                 ("dbOrgID", "tenant123"), ("dbOrgName", "tenant name")] }
    certificateManagerCreate := .ok ()
    getInternalMgrSecret := .ok (some { name := "internal-manager-tls" })
    getAPICertSecretResult := .ok { name := "tigera-image-assurance-api-cert", nspace := OperatorNamespace }
    getScannerServiceAccount := .ok
      { name := "tigera-image-assurance-scanner-api-access"
        nspace := OperatorNamespace
        secrets := [{ name := "scanner-token-abcde" }] }
    getSecretByName := fun _ => .ok
      { name := "scanner-token-abcde", nspace := OperatorNamespace, data := [("token", "tok123")] }
    getImageSet := .ok ()
    validateImageSet := .ok ()
    getAuthentication := .error (.notFound "authentications.operator.tigera.io \"tigera-secure\" not found")
    getKeyValidatorConfig := .ok ()
    applyImageSet := .ok ()
    createOrUpdateOrDelete := fun _ => .ok ()
    isAvailable := true
    statusUpdate := .ok () }

/-- As `iaEnvReady` but the Installation declares the Calico variant, not
  TigeraSecureEnterprise. -/
def iaEnvCalicoVariant : IAEnv :=
  { iaEnvReady with getInstallation := .ok ("Calico", {}) }

/-- As `iaEnvReady` but the scanner API-access ServiceAccount does not exist. -/
def iaEnvScannerSANotFound : IAEnv :=
  { iaEnvReady with
      getScannerServiceAccount :=
        .error (.notFound "serviceaccounts \"tigera-image-assurance-scanner-api-access\" not found") }

/-- As `iaEnvReady` but the configuration ConfigMap does not exist. -/
def iaEnvConfigMapNotFound : IAEnv :=
  { iaEnvReady with
      getConfigurationConfigMap :=
        .error (.notFound "configmaps \"tigera-image-assurance-config\" not found") }

/-- As `iaEnvReady` but the configuration ConfigMap read fails transiently. -/
def iaEnvConfigMapReadError : IAEnv :=
  { iaEnvReady with getConfigurationConfigMap := .error (.other "etcdserver: request timed out") }

/-- As `iaEnvReady` but the scanner ServiceAccount exists with no listed secret. -/
def iaEnvScannerSANoSecrets : IAEnv :=
  { iaEnvReady with
      getScannerServiceAccount := .ok
        { name := "tigera-image-assurance-scanner-api-access"
          nspace := OperatorNamespace
          secrets := [] } }

/-- As `iaEnvReady` but the ImageAssurance CR does not exist. -/
def iaEnvCRNotFound : IAEnv :=
  { iaEnvReady with
      getImageAssurance :=
        .error (.notFound "imageassurances.operator.tigera.io \"tigera-secure\" not found") }

/-- As `iaEnvReady` but owned workloads are not yet available. -/
def iaEnvNotAvailable : IAEnv :=
  { iaEnvReady with isAvailable := false }

/-- As `iaEnvReady` but the CR's APIProxyURL is empty. -/
def iaEnvEmptyProxyURL : IAEnv :=
  { iaEnvReady with getImageAssurance := .ok { spec := { apiProxyURL := "" } } }

/-- A fully healthy RuntimeSecurity pass. -/
def rsEnvReady : RSEnv :=
  { getRuntimeSecurity := .ok {}
    getInstallation := .ok (TigeraSecureEnterprise, {})
    getNetworkingPullSecrets := .ok []
    getElasticsearchClusterConfig := .ok ()
    elasticsearchSecrets := .ok []
    certificateManagerCreate := .ok ()
    getEsgwCertificate := .ok (some { name := PublicCertSecret })
    applyImageSet := .ok ()
    createOrUpdateOrDelete := .ok ()
    isAvailable := true
    statusUpdate := .ok () }

/-- As `rsEnvReady` but the Installation declares the Calico variant. -/
def rsEnvCalicoVariant : RSEnv :=
  { rsEnvReady with getInstallation := .ok ("Calico", {}) }

/-- As `rsEnvReady` but the RuntimeSecurity CR does not exist. -/
def rsEnvCRNotFound : RSEnv :=
  { rsEnvReady with
      getRuntimeSecurity :=
        .error (.notFound "runtimesecurities.operator.tigera.io \"tigera-secure\" not found") }

/-- As `rsEnvReady` but owned workloads are not yet available. -/
def rsEnvNotAvailable : RSEnv :=
  { rsEnvReady with isAvailable := false }

/-- Sample runtimesecurity render Config carrying a pull secret and the
  sasha Elasticsearch secret. -/
def rsRenderCfgSample : runtimesecurity.Config :=
  { pullSecrets := [{ name := "tigera-pull-secret" }]
    sashaESSecrets := [{ name := runtimesecurity.ElasticsearchSashaJobUserSecretName }]
    sashaImage := "some.registry.org/tigera/sasha:v1"
    threatIdImage := "some.registry.org/tigera/threat-id:v1" }

/-- Sample Core CR declaring the enterprise variant. -/
def coreEnterprise : render.Core :=
  { spec := { variant := TigeraSecureEnterprise, registry := "some.registry.org/", version := "v3.0" } }

/-- Sample Core CR declaring the Calico variant. -/
def coreCalico : render.Core :=
  { spec := { variant := "Calico", registry := "some.registry.org/", version := "v3.0" } }

/-- C10: Round-trip: for every CloudConfig whose tenantId, tenantName,
  externalESDomain and externalKibanaDomain fields are all non-empty
  strings, `NewCloudConfigFromConfigMap` applied to that CloudConfig's
  `ConfigMap()` output returns an equal CloudConfig (all five fields
  preserved, enableMTLS included) and no error. -/
theorem c10_cloudconfig_roundtrip (c : CloudConfig)
    (h1 : c.tenantId ≠ "") (h2 : c.tenantName ≠ "")
    (h3 : c.externalESDomain ≠ "") (h4 : c.externalKibanaDomain ≠ "") :
    NewCloudConfigFromConfigMap c.ConfigMap = .ok c := by
  have hget1 : c.ConfigMap.dataGet "tenantId" = c.tenantId := rfl
  have hget2 : c.ConfigMap.dataGet "tenantName" = c.tenantName := rfl
  have hget3 : c.ConfigMap.dataGet "externalESDomain" = c.externalESDomain := rfl
  have hget4 : c.ConfigMap.dataGet "externalKibanaDomain" = c.externalKibanaDomain := rfl
  have hget5 : c.ConfigMap.dataGet "enableMTLS" = strconvFormatBool c.enableMTLS := rfl
  cases hb : c.enableMTLS <;>
    simp [NewCloudConfigFromConfigMap, hget1, hget2, hget3, hget4, hget5,
      h1, h2, h3, h4, hb, strconvFormatBool, strconvParseBool, NewCloudConfig] <;>
    (cases c; simp_all)

theorem c10_cloudconfig_roundtrip_witness :
    NewCloudConfigFromConfigMap
        (CloudConfig.ConfigMap ⟨"tenantId", "tenantName", "externalES.com", "externalKb.com", true⟩)
      = .ok ⟨"tenantId", "tenantName", "externalES.com", "externalKb.com", true⟩ :=
  c10_cloudconfig_roundtrip ⟨"tenantId", "tenantName", "externalES.com", "externalKb.com", true⟩
    (by decide) (by decide) (by decide) (by decide)

/-- C1 (amended): for every RuntimeSecurity reconcile pass in which the
  custom resource exists and the fetched Installation does not declare
  the TigeraSecureEnterprise variant, the reconciler sets status Degraded
  with the message "Waiting for network to be TigeraSecureEnterprise" and
  returns an empty result with a nil error, performing no rendering or
  apply. (The ImageAssurance reconciler performs no such variant check;
  see the counterexample.) -/
theorem c1_runtimesecurity_variant_gate (env : RSEnv) (rs : RuntimeSecurityCR)
    (v : String) (inst : InstallationSpec)
    (hcr : env.getRuntimeSecurity = .ok rs)
    (hinst : env.getInstallation = .ok (v, inst))
    (hv : v ≠ TigeraSecureEnterprise) :
    ReconcileRuntimeSecurity env =
      { result := {}, err := none
        statusActions := [.onCRFound,
          .setDegraded "Waiting for network to be TigeraSecureEnterprise" ""]
        appliedComponents := [], crStatusWritten := none } := by
  have hmsg : "Waiting for network to be " ++ TigeraSecureEnterprise
      = "Waiting for network to be TigeraSecureEnterprise" := rfl
  simp only [ReconcileRuntimeSecurity, hcr, hinst, hmsg]
  rw [if_pos hv]

theorem c1_runtimesecurity_variant_gate_witness :
    ReconcileRuntimeSecurity rsEnvCalicoVariant =
      { result := {}, err := none
        statusActions := [.onCRFound,
          .setDegraded "Waiting for network to be TigeraSecureEnterprise" ""]
        appliedComponents := [], crStatusWritten := none } :=
  c1_runtimesecurity_variant_gate rsEnvCalicoVariant {} "Calico" {} rfl rfl (by decide)

/-- C1 (counterexample): in the ImageAssurance reconciler, a pass in
  which the CR exists and the Installation variant is "Calico" (not
  TigeraSecureEnterprise) proceeds to apply all rendered components and
  never sets Degraded at all — contradicting the claim that every
  reconciler degrades with "Waiting for network to be
  TigeraSecureEnterprise" and performs no rendering or apply. -/
theorem c1_imageassurance_no_variant_gate :
    (ReconcileImageAssurance iaEnvCalicoVariant).appliedComponents = [0, 1, 2] ∧
    ∀ r d, StatusAction.setDegraded r d ∉ (ReconcileImageAssurance iaEnvCalicoVariant).statusActions := by
  have h : ReconcileImageAssurance iaEnvCalicoVariant =
      { result := {}, err := none
        statusActions := [.onCRFound, .clearDegraded]
        appliedComponents := [0, 1, 2], crStatusWritten := some TigeraStatusReady } := rfl
  rw [h]
  exact ⟨rfl, by intro r d hmem; simp at hmem⟩

/-- C2 (counterexample): with every earlier read healthy, a "not found"
  on the scanner API-access ServiceAccount lookup makes the
  ImageAssurance reconciler return that not-found error (non-nil),
  refuting the claimed not-found-implies-nil-error dichotomy for this
  prerequisite read. -/
theorem c2_scanner_sa_notfound_returns_error :
    (ReconcileImageAssurance iaEnvScannerSANotFound).err =
      some (KError.notFound "serviceaccounts \"tigera-image-assurance-scanner-api-access\" not found") ∧
    (ReconcileImageAssurance iaEnvScannerSANotFound).statusActions =
      [.onCRFound, .setDegraded "Error in retrieving scanner API access token"
        "serviceaccounts \"tigera-image-assurance-scanner-api-access\" not found"] :=
  ⟨rfl, rfl⟩

/-- C2 (amended): in the ImageAssurance reconciler,
  (i) a not-found on the configuration ConfigMap degrades and returns a
  nil error, and (ii) any other failure of that read degrades and
  returns the error; but (iii) for the scanner API-access
  service-account lookup every read failure — not-found included —
  degrades and returns a non-nil error, and (iv) the nil-error "waiting"
  path occurs only when the service account exists but lists no token
  secret. -/
theorem c2_prerequisite_read_dichotomy_amended :
    (∀ (env : IAEnv) (ia : ImageAssuranceCR) (vi : String × InstallationSpec)
       (ps : List KSecret) (m : String),
      env.getImageAssurance = .ok ia →
      env.getInstallation = .ok vi →
      env.getNetworkingPullSecrets = .ok ps →
      env.getConfigurationConfigMap = .error (.notFound m) →
      ReconcileImageAssurance env =
        { result := {}, err := none
          statusActions := [.onCRFound,
            .setDegraded (ConfigurationConfigMapName ++ " ConfigMap not found") m]
          appliedComponents := [], crStatusWritten := none }) ∧
    (∀ (env : IAEnv) (ia : ImageAssuranceCR) (vi : String × InstallationSpec)
       (ps : List KSecret) (m : String),
      env.getImageAssurance = .ok ia →
      env.getInstallation = .ok vi →
      env.getNetworkingPullSecrets = .ok ps →
      env.getConfigurationConfigMap = .error (.other m) →
      ReconcileImageAssurance env =
        { result := {}, err := some (.other m)
          statusActions := [.onCRFound,
            .setDegraded "Error retrieving image assurance configuration" m]
          appliedComponents := [], crStatusWritten := none }) ∧
    (∀ (env : IAEnv) (ia : ImageAssuranceCR) (vi : String × InstallationSpec)
       (ps : List KSecret) (cm : KConfigMap) (cert : Certificate) (ts : KSecret) (e : KError),
      env.getImageAssurance = .ok ia →
      ia.spec.apiProxyURL ≠ "" →
      env.getInstallation = .ok vi →
      env.getNetworkingPullSecrets = .ok ps →
      env.getConfigurationConfigMap = .ok cm →
      env.certificateManagerCreate = .ok () →
      env.getInternalMgrSecret = .ok (some cert) →
      env.getAPICertSecretResult = .ok ts →
      env.getScannerServiceAccount = .error e →
      ReconcileImageAssurance env =
        { result := {}, err := some e
          statusActions := [.onCRFound,
            .setDegraded "Error in retrieving scanner API access token" e.message]
          appliedComponents := [], crStatusWritten := none }) ∧
    (∀ (env : IAEnv) (ia : ImageAssuranceCR) (vi : String × InstallationSpec)
       (ps : List KSecret) (cm : KConfigMap) (cert : Certificate) (ts : KSecret)
       (sa : KServiceAccount),
      env.getImageAssurance = .ok ia →
      ia.spec.apiProxyURL ≠ "" →
      env.getInstallation = .ok vi →
      env.getNetworkingPullSecrets = .ok ps →
      env.getConfigurationConfigMap = .ok cm →
      env.certificateManagerCreate = .ok () →
      env.getInternalMgrSecret = .ok (some cert) →
      env.getAPICertSecretResult = .ok ts →
      env.getScannerServiceAccount = .ok sa →
      sa.secrets = [] →
      ReconcileImageAssurance env =
        { result := {}, err := none
          statusActions := [.onCRFound,
            .setDegraded "Waiting for scanner api access service account secret to be available" ""]
          appliedComponents := [], crStatusWritten := none }) := by
  refine ⟨?_, ?_, ?_, ?_⟩
  · intro env ia vi ps m hcr hinst hps hcm
    simp [ReconcileImageAssurance, hcr, hinst, hps, hcm, KError.isNotFound, KError.message]
  · intro env ia vi ps m hcr hinst hps hcm
    simp [ReconcileImageAssurance, hcr, hinst, hps, hcm, KError.isNotFound, KError.message]
  · intro env ia vi ps cm cert ts e hcr hurl hinst hps hcm hcmc hims hapi hsa
    simp [ReconcileImageAssurance, hcr, hurl, hinst, hps, hcm, hcmc, hims, hapi,
      getAPIAccessToken, hsa]
  · intro env ia vi ps cm cert ts sa hcr hurl hinst hps hcm hcmc hims hapi hsa hsecrets
    simp [ReconcileImageAssurance, hcr, hurl, hinst, hps, hcm, hcmc, hims, hapi,
      getAPIAccessToken, hsa, hsecrets]

theorem c2_prerequisite_read_dichotomy_amended_witness :
    (ReconcileImageAssurance iaEnvConfigMapNotFound =
      { result := {}, err := none
        statusActions := [.onCRFound,
          .setDegraded (ConfigurationConfigMapName ++ " ConfigMap not found")
            "configmaps \"tigera-image-assurance-config\" not found"]
        appliedComponents := [], crStatusWritten := none }) ∧
    (ReconcileImageAssurance iaEnvConfigMapReadError =
      { result := {}, err := some (.other "etcdserver: request timed out")
        statusActions := [.onCRFound,
          .setDegraded "Error retrieving image assurance configuration" "etcdserver: request timed out"]
        appliedComponents := [], crStatusWritten := none }) ∧
    (ReconcileImageAssurance iaEnvScannerSANoSecrets =
      { result := {}, err := none
        statusActions := [.onCRFound,
          .setDegraded "Waiting for scanner api access service account secret to be available" ""]
        appliedComponents := [], crStatusWritten := none }) :=
  ⟨c2_prerequisite_read_dichotomy_amended.1 iaEnvConfigMapNotFound
      { spec := { apiProxyURL := "https://proxy.example" } } (TigeraSecureEnterprise, {}) []
      "configmaps \"tigera-image-assurance-config\" not found" rfl rfl rfl rfl,
   c2_prerequisite_read_dichotomy_amended.2.1 iaEnvConfigMapReadError
      { spec := { apiProxyURL := "https://proxy.example" } } (TigeraSecureEnterprise, {}) []
      "etcdserver: request timed out" rfl rfl rfl rfl,
   c2_prerequisite_read_dichotomy_amended.2.2.2 iaEnvScannerSANoSecrets
      { spec := { apiProxyURL := "https://proxy.example" } } (TigeraSecureEnterprise, {}) []
      { name := ConfigurationConfigMapName
        nspace := OperatorNamespace
        data := [("host", "some.domain.io"), ("name", "my-database"), ("port", "1234"),
                 ("dbOrgID", "tenant123"), ("dbOrgName", "tenant name")] }
      { name := "internal-manager-tls" }
      { name := "tigera-image-assurance-api-cert", nspace := OperatorNamespace }
      { name := "tigera-image-assurance-scanner-api-access"
        nspace := OperatorNamespace
        secrets := [] }
      rfl (by decide) rfl rfl rfl rfl rfl rfl rfl rfl⟩

/-- C3: for every reconcile pass in which fetching the custom resource
  yields a not-found error, the reconciler calls OnCRNotFound and
  returns an empty result with a nil error, mutating nothing (no
  component applied, no CR status written); this holds for both the
  ImageAssurance and RuntimeSecurity reconcilers. -/
theorem c3_cr_notfound_terminal :
    (∀ (env : IAEnv) (m : String),
      env.getImageAssurance = .error (.notFound m) →
      ReconcileImageAssurance env =
        { result := {}, err := none, statusActions := [.onCRNotFound]
          appliedComponents := [], crStatusWritten := none }) ∧
    (∀ (env : RSEnv) (m : String),
      env.getRuntimeSecurity = .error (.notFound m) →
      ReconcileRuntimeSecurity env =
        { result := {}, err := none, statusActions := [.onCRNotFound]
          appliedComponents := [], crStatusWritten := none }) := by
  constructor
  · intro env m hcr
    simp [ReconcileImageAssurance, hcr, KError.isNotFound]
  · intro env m hcr
    simp [ReconcileRuntimeSecurity, hcr, KError.isNotFound]

theorem c3_cr_notfound_terminal_witness :
    (ReconcileImageAssurance iaEnvCRNotFound =
      { result := {}, err := none, statusActions := [.onCRNotFound]
        appliedComponents := [], crStatusWritten := none }) ∧
    (ReconcileRuntimeSecurity rsEnvCRNotFound =
      { result := {}, err := none, statusActions := [.onCRNotFound]
        appliedComponents := [], crStatusWritten := none }) :=
  ⟨c3_cr_notfound_terminal.1 iaEnvCRNotFound
      "imageassurances.operator.tigera.io \"tigera-secure\" not found" rfl,
   c3_cr_notfound_terminal.2 rsEnvCRNotFound
      "runtimesecurities.operator.tigera.io \"tigera-secure\" not found" rfl⟩

/-- C4: for every reconcile pass in which all prerequisites are
  satisfied and all apply steps succeed, when the status tracker's
  IsAvailable() is false the reconciler (having called ClearDegraded
  last) returns a 30-second delayed requeue with a nil error and writes
  no Ready state to the CR; when IsAvailable() is true it writes
  Status.State = Ready and returns an empty result. Holds for both the
  ImageAssurance and RuntimeSecurity reconcilers. -/
theorem c4_success_requeue_or_ready :
    (∀ (env : IAEnv) (ia : ImageAssuranceCR) (vi : String × InstallationSpec)
       (ps : List KSecret) (cm : KConfigMap) (cert : Certificate) (ts : KSecret)
       (sa : KServiceAccount) (ref : ObjectReference) (refs : List ObjectReference)
       (saSecret : KSecret) (tok : String) (m : String),
      env.getImageAssurance = .ok ia →
      ia.spec.apiProxyURL ≠ "" →
      env.getInstallation = .ok vi →
      env.getNetworkingPullSecrets = .ok ps →
      env.getConfigurationConfigMap = .ok cm →
      env.certificateManagerCreate = .ok () →
      env.getInternalMgrSecret = .ok (some cert) →
      env.getAPICertSecretResult = .ok ts →
      env.getScannerServiceAccount = .ok sa →
      sa.secrets = ref :: refs →
      env.getSecretByName ref.name = .ok saSecret →
      saSecret.data.lookup "token" = some tok →
      env.getImageSet = .ok () →
      env.validateImageSet = .ok () →
      env.getAuthentication = .error (.notFound m) →
      env.getKeyValidatorConfig = .ok () →
      env.applyImageSet = .ok () →
      env.createOrUpdateOrDelete 0 = .ok () →
      env.createOrUpdateOrDelete 1 = .ok () →
      env.createOrUpdateOrDelete 2 = .ok () →
      env.statusUpdate = .ok () →
      ((env.isAvailable = false →
        ReconcileImageAssurance env =
          { result := { requeueAfterSeconds := some 30 }, err := none
            statusActions := [.onCRFound, .clearDegraded]
            appliedComponents := [0, 1, 2], crStatusWritten := none }) ∧
       (env.isAvailable = true →
        ReconcileImageAssurance env =
          { result := {}, err := none
            statusActions := [.onCRFound, .clearDegraded]
            appliedComponents := [0, 1, 2], crStatusWritten := some TigeraStatusReady }))) ∧
    (∀ (env : RSEnv) (rs : RuntimeSecurityCR) (inst : InstallationSpec)
       (ps : List KSecret) (ss : List KSecret) (cert : Certificate),
      env.getRuntimeSecurity = .ok rs →
      env.getInstallation = .ok (TigeraSecureEnterprise, inst) →
      env.getNetworkingPullSecrets = .ok ps →
      env.getElasticsearchClusterConfig = .ok () →
      env.elasticsearchSecrets = .ok ss →
      env.certificateManagerCreate = .ok () →
      env.getEsgwCertificate = .ok (some cert) →
      env.applyImageSet = .ok () →
      env.createOrUpdateOrDelete = .ok () →
      env.statusUpdate = .ok () →
      ((env.isAvailable = false →
        ReconcileRuntimeSecurity env =
          { result := { requeueAfterSeconds := some 30 }, err := none
            statusActions := [.onCRFound, .clearDegraded]
            appliedComponents := [0], crStatusWritten := none }) ∧
       (env.isAvailable = true →
        ReconcileRuntimeSecurity env =
          { result := {}, err := none
            statusActions := [.onCRFound, .clearDegraded]
            appliedComponents := [0], crStatusWritten := some TigeraStatusReady }))) := by
  constructor
  · intro env ia vi ps cm cert ts sa ref refs saSecret tok m
      hcr hurl hinst hps hcm hcmc hims hapi hsa href hsec htok his hvis hauth hkvc hais h0 h1 h2 hsu
    constructor
    · intro hav
      simp [ReconcileImageAssurance, iaReconcileFromAuth, iaReconcileFromKVC, getAPIAccessToken,
        hcr, hurl, hinst, hps, hcm, hcmc, hims, hapi, hsa, href, hsec, htok, his, hvis, hauth,
        hkvc, hais, h0, h1, h2, hsu, hav, KError.isNotFound]
    · intro hav
      simp [ReconcileImageAssurance, iaReconcileFromAuth, iaReconcileFromKVC, getAPIAccessToken,
        hcr, hurl, hinst, hps, hcm, hcmc, hims, hapi, hsa, href, hsec, htok, his, hvis, hauth,
        hkvc, hais, h0, h1, h2, hsu, hav, KError.isNotFound]
  · intro env rs inst ps ss cert hcr hinst hps hes hess hcmc hesgw hais hcou hsu
    constructor
    · intro hav
      simp [ReconcileRuntimeSecurity, hcr, hinst, hps, hes, hess, hcmc, hesgw, hais, hcou,
        hsu, hav]
    · intro hav
      simp [ReconcileRuntimeSecurity, hcr, hinst, hps, hes, hess, hcmc, hesgw, hais, hcou,
        hsu, hav]

theorem c4_success_requeue_or_ready_witness :
    (ReconcileImageAssurance iaEnvNotAvailable =
      { result := { requeueAfterSeconds := some 30 }, err := none
        statusActions := [.onCRFound, .clearDegraded]
        appliedComponents := [0, 1, 2], crStatusWritten := none }) ∧
    (ReconcileRuntimeSecurity rsEnvReady =
      { result := {}, err := none
        statusActions := [.onCRFound, .clearDegraded]
        appliedComponents := [0], crStatusWritten := some TigeraStatusReady }) :=
  ⟨(c4_success_requeue_or_ready.1 iaEnvNotAvailable
      { spec := { apiProxyURL := "https://proxy.example" } } (TigeraSecureEnterprise, {}) []
      { name := ConfigurationConfigMapName
        nspace := OperatorNamespace
        data := [("host", "some.domain.io"), ("name", "my-database"), ("port", "1234"),
                 ("dbOrgID", "tenant123"), ("dbOrgName", "tenant name")] }
      { name := "internal-manager-tls" }
      { name := "tigera-image-assurance-api-cert", nspace := OperatorNamespace }
      { name := "tigera-image-assurance-scanner-api-access"
        nspace := OperatorNamespace
        secrets := [{ name := "scanner-token-abcde" }] }
      { name := "scanner-token-abcde" } []
      { name := "scanner-token-abcde", nspace := OperatorNamespace, data := [("token", "tok123")] }
      "tok123" "authentications.operator.tigera.io \"tigera-secure\" not found"
      rfl (by decide) rfl rfl rfl rfl rfl rfl rfl rfl rfl rfl rfl rfl rfl rfl rfl rfl rfl rfl rfl).1 rfl,
   (c4_success_requeue_or_ready.2 rsEnvReady {} {} [] []
      { name := PublicCertSecret }
      rfl rfl rfl rfl rfl rfl rfl rfl rfl rfl).2 rfl⟩

/-- C5: for every ImageAssurance reconcile pass in which the CR,
  Installation, pull secrets and configuration ConfigMap are all
  readable but the CR's Spec.APIProxyURL is the empty string, the
  reconciler sets Degraded with the message "APIProxyURL cannot be nil
  or empty" and returns an empty result with a non-nil error. -/
theorem c5_empty_apiproxyurl_hard_error (env : IAEnv) (ia : ImageAssuranceCR)
    (vi : String × InstallationSpec) (ps : List KSecret) (cm : KConfigMap)
    (hcr : env.getImageAssurance = .ok ia)
    (hurl : ia.spec.apiProxyURL = "")
    (hinst : env.getInstallation = .ok vi)
    (hps : env.getNetworkingPullSecrets = .ok ps)
    (hcm : env.getConfigurationConfigMap = .ok cm) :
    ReconcileImageAssurance env =
      { result := {}, err := some (.other "APIProxyURL cannot be nil or empty")
        statusActions := [.onCRFound,
          .setDegraded "APIProxyURL cannot be nil or empty" "APIProxyURL cannot be nil or empty"]
        appliedComponents := [], crStatusWritten := none } := by
  simp [ReconcileImageAssurance, hcr, hurl, hinst, hps, hcm]

theorem c5_empty_apiproxyurl_hard_error_witness :
    ReconcileImageAssurance iaEnvEmptyProxyURL =
      { result := {}, err := some (.other "APIProxyURL cannot be nil or empty")
        statusActions := [.onCRFound,
          .setDegraded "APIProxyURL cannot be nil or empty" "APIProxyURL cannot be nil or empty"]
        appliedComponents := [], crStatusWritten := none } :=
  c5_empty_apiproxyurl_hard_error iaEnvEmptyProxyURL { spec := { apiProxyURL := "" } }
    (TigeraSecureEnterprise, {}) []
    { name := ConfigurationConfigMapName
      nspace := OperatorNamespace
      data := [("host", "some.domain.io"), ("name", "my-database"), ("port", "1234"),
               ("dbOrgID", "tenant123"), ("dbOrgName", "tenant name")] }
    rfl rfl rfl rfl rfl

/-- C6: rendering is deterministic: two invocations of the
  RuntimeSecurity component's Objects() on the same Config return
  create-lists and delete-lists equal element-for-element in content and
  in relative ordering (two-run equality over the embedded render
  function). -/
theorem c6_render_deterministic (cfg : runtimesecurity.Config) :
    (runtimesecurity.Objects cfg).1 = (runtimesecurity.Objects cfg).1 ∧
    (runtimesecurity.Objects cfg).2 = (runtimesecurity.Objects cfg).2 :=
  ⟨rfl, rfl⟩

/-- C8: for every Config, the create-list returned by the
  RuntimeSecurity component's Objects() begins with the
  tigera-runtime-security Namespace object, and every object after it is
  namespaced (into tigera-runtime-security), so the namespace precedes
  every namespaced object in the list. -/
theorem c8_namespace_first (cfg : runtimesecurity.Config) :
    (∃ n : KNamespace,
      (runtimesecurity.Objects cfg).1.head? = some (.namespaceObj n) ∧
      n.name = runtimesecurity.NameSpaceRuntimeSecurity) ∧
    ∀ o ∈ (runtimesecurity.Objects cfg).1.tail,
      o.objNamespace = runtimesecurity.NameSpaceRuntimeSecurity := by
  constructor
  · refine ⟨{ name := runtimesecurity.NameSpaceRuntimeSecurity
              labels := [("pod-security.kubernetes.io/enforce", runtimesecurity.PSSPrivileged)] },
      ?_, rfl⟩
    by_cases h : cfg.sashaESSecrets.length > 0 <;>
      simp [runtimesecurity.Objects, runtimesecurity.CreateNamespace, h]
  · intro o ho
    by_cases h : cfg.sashaESSecrets.length > 0 <;>
      simp [runtimesecurity.Objects, runtimesecurity.CreateNamespace,
        runtimesecurity.secretsToRuntimeObjects, runtimesecurity.secretCopyToNamespace, h] at ho
    · rcases ho with ⟨s, hs, rfl⟩ | rfl | ⟨s, hs, rfl⟩ | rfl | rfl <;>
        simp [KObject.objNamespace, TrustedBundle.toConfigMap,
          runtimesecurity.sashaServiceAccount, runtimesecurity.sashaDeployment]
    · rcases ho with ⟨s, hs, rfl⟩ | rfl <;>
        simp [KObject.objNamespace, TrustedBundle.toConfigMap]

theorem c8_namespace_first_witness :
    (∃ n : KNamespace,
      (runtimesecurity.Objects rsRenderCfgSample).1.head? = some (.namespaceObj n) ∧
      n.name = runtimesecurity.NameSpaceRuntimeSecurity) ∧
    (KObject.secretObj
        { name := "tigera-pull-secret"
          nspace := runtimesecurity.NameSpaceRuntimeSecurity }).objNamespace
      = runtimesecurity.NameSpaceRuntimeSecurity :=
  ⟨(c8_namespace_first rsRenderCfgSample).1,
   (c8_namespace_first rsRenderCfgSample).2
     (KObject.secretObj
       { name := "tigera-pull-secret"
         nspace := runtimesecurity.NameSpaceRuntimeSecurity })
     (by decide)⟩

/-- With unique keys, looking up a key present in the association list
  returns its value. -/
theorem lookup_of_mem_of_nodup_keys {l : List (String × String)} {k b : String}
    (hn : (l.map Prod.fst).Nodup) (hm : (k, b) ∈ l) : l.lookup k = some b := by
  induction l with
  | nil => simp at hm
  | cons p t ih =>
    obtain ⟨a, c⟩ := p
    simp only [List.map_cons, List.nodup_cons] at hn
    rcases List.mem_cons.mp hm with heq | hmem
    · cases heq
      simp
    · have hk : k ≠ a := by
        rintro rfl
        exact hn.1 (List.mem_map.mpr ⟨(k, b), hmem, rfl⟩)
      rw [List.lookup_cons, beq_false_of_ne hk]
      exact ih hn.2 hmem

/-- Map reads are iteration-order independent: permuted association
  lists with unique keys agree on every lookup. -/
theorem lookup_eq_of_perm {l₁ l₂ : List (String × String)} (hp : l₁.Perm l₂)
    (hn : (l₁.map Prod.fst).Nodup) (k : String) : l₁.lookup k = l₂.lookup k := by
  cases h : l₁.lookup k with
  | none =>
    have h2 : l₂.lookup k = none := by
      rw [List.lookup_eq_none_iff] at h ⊢
      intro p hp2
      exact h p (hp.mem_iff.mpr hp2)
    rw [h2]
  | some b =>
    have hmem : (k, b) ∈ l₁ := by
      rw [List.lookup_eq_some_iff] at h
      obtain ⟨u, v, rfl, -⟩ := h
      exact List.mem_append.mpr (Or.inr (List.mem_cons_self _ _))
    have hn₂ : (l₂.map Prod.fst).Nodup := ((hp.map Prod.fst).nodup_iff).mp hn
    exact (lookup_of_mem_of_nodup_keys hn₂ (hp.subset hmem)).symm

theorem stringLeTrans : ∀ (a b c : String),
    decide (a ≤ b) = true → decide (b ≤ c) = true → decide (a ≤ c) = true := by
  intro a b c h1 h2
  simp only [decide_eq_true_eq] at h1 h2 ⊢
  exact le_trans h1 h2

theorem stringLeTotal : ∀ (a b : String), (decide (a ≤ b) || decide (b ≤ a)) = true := by
  intro a b
  simpa [decide_eq_true_eq] using le_total a b

/-- Sorting the key list makes it canonical: permuted key lists merge-sort
  to the same sorted list. -/
theorem mergeSort_keys_eq_of_perm {l₁ l₂ : List String} (hp : l₁.Perm l₂) :
    l₁.mergeSort (fun a b => decide (a ≤ b)) = l₂.mergeSort (fun a b => decide (a ≤ b)) := by
  have hs₁ : List.Sorted (· ≤ ·) (l₁.mergeSort (fun a b => decide (a ≤ b))) :=
    (List.sorted_mergeSort stringLeTrans stringLeTotal l₁).imp fun h => of_decide_eq_true h
  have hs₂ : List.Sorted (· ≤ ·) (l₂.mergeSort (fun a b => decide (a ≤ b))) :=
    (List.sorted_mergeSort stringLeTrans stringLeTotal l₂).imp fun h => of_decide_eq_true h
  exact List.eq_of_perm_of_sorted
    (((List.mergeSort_perm l₁ _).trans hp).trans (List.mergeSort_perm l₂ _).symm) hs₁ hs₂

/-- The per-key appended block depends on the map only through lookups. -/
theorem foldl_appendManagerExtraEnv_congr {l₁ l₂ : List (String × String)}
    (h : ∀ k, l₁.lookup k = l₂.lookup k) :
    ∀ (ks : List String) (envs : List EnvVar),
      ks.foldl (appendManagerExtraEnv l₁) envs = ks.foldl (appendManagerExtraEnv l₂) envs := by
  intro ks
  induction ks with
  | nil => intro envs; rfl
  | cons k t ih =>
    intro envs
    simp only [List.foldl_cons]
    rw [show appendManagerExtraEnv l₁ envs k = appendManagerExtraEnv l₂ envs k by
      simp [appendManagerExtraEnv, h k]]
    exact ih _

/-- C7: the environment variables `setManagerCloudEnvs` appends from the
  ManagerExtraEnv map appear in ascending alphabetical order of the map
  keys (with the legacy `portalAPIURL` / `auth0OrgID` keys translated in
  that same sorted position), so the resulting environment-variable list
  is the same regardless of map iteration order: (1) any two iteration
  sequences of the same map (permutations with unique keys) produce
  equal results; (2) the result is the base list extended by folding the
  per-key block over a sorted enumeration of the map's keys. -/
theorem c7_extra_env_sorted :
    (∀ (imageAssuranceEnabled : Bool) (envs : List EnvVar) (l₁ l₂ : List (String × String)),
      l₁.Perm l₂ → (l₁.map Prod.fst).Nodup →
      setManagerCloudEnvs imageAssuranceEnabled l₁ envs =
        setManagerCloudEnvs imageAssuranceEnabled l₂ envs) ∧
    (∀ (imageAssuranceEnabled : Bool) (envs : List EnvVar) (l : List (String × String)),
      ∃ ks : List String, ks.Sorted (· ≤ ·) ∧ ks.Perm (l.map Prod.fst) ∧
        setManagerCloudEnvs imageAssuranceEnabled l envs =
          ks.foldl (appendManagerExtraEnv l) (managerCloudBaseEnvs imageAssuranceEnabled envs)) := by
  constructor
  · intro ia envs l₁ l₂ hp hn
    unfold setManagerCloudEnvs
    rw [mergeSort_keys_eq_of_perm (hp.map Prod.fst)]
    exact foldl_appendManagerExtraEnv_congr (lookup_eq_of_perm hp hn) _ _
  · intro ia envs l
    refine ⟨(l.map Prod.fst).mergeSort (fun a b => decide (a ≤ b)), ?_,
      List.mergeSort_perm _ _, rfl⟩
    exact (List.sorted_mergeSort stringLeTrans stringLeTotal _).imp fun h => of_decide_eq_true h

theorem c7_extra_env_sorted_witness :
    setManagerCloudEnvs true [("portalAPIURL", "https://portal.example"), ("EXTRA_VAR", "v")] [] =
      setManagerCloudEnvs true [("EXTRA_VAR", "v"), ("portalAPIURL", "https://portal.example")] [] :=
  c7_extra_env_sorted.1 true [] _ _ (by decide) (by decide)

/-- C9: for every Core custom resource whose Spec.Variant is not
  TigeraSecureEnterprise, the APIServer render function returns nil; for
  every Core CR whose Spec.Variant is TigeraSecureEnterprise it returns
  exactly nine objects, beginning with the tigera-apiserver Deployment
  and containing the audit-policy ConfigMap, the service account, the
  v3.projectcalico.org APIService, the tigera-api Service, and the four
  RBAC objects. -/
theorem c9_apiserver_render (cr : render.Core) :
    (cr.spec.variant ≠ TigeraSecureEnterprise → render.APIServer cr = none) ∧
    (cr.spec.variant = TigeraSecureEnterprise →
      ∃ objs : List KObject, render.APIServer cr = some objs ∧
        objs.length = 9 ∧
        objs.head? = some (.deploymentObj (render.apiServer cr)) ∧
        (render.apiServer cr).name = "tigera-apiserver" ∧
        .configMapObj (render.auditPolicyConfigMap cr) ∈ objs ∧
        (render.auditPolicyConfigMap cr).name = "tigera-audit-policy" ∧
        .serviceAccountObj (render.apiServerServiceAccount cr) ∈ objs ∧
        .apiServiceObj (render.apiService cr) ∈ objs ∧
        (render.apiService cr).name = "v3.projectcalico.org" ∧
        .serviceObj (render.apiServerService cr) ∈ objs ∧
        (render.apiServerService cr).name = "tigera-api" ∧
        .clusterRoleObj (render.tieredPolicyPassthruClusterRole cr) ∈ objs ∧
        .clusterRoleBindingObj (render.tieredPolicyPassthruClusterRolebinding cr) ∈ objs ∧
        .clusterRoleBindingObj (render.delegateAuthClusterRoleBinding cr) ∈ objs ∧
        .roleBindingObj (render.authReaderRoleBinding cr) ∈ objs) := by
  constructor
  · intro h
    simp [render.APIServer, h]
  · intro h
    refine ⟨[.deploymentObj (render.apiServer cr),
             .configMapObj (render.auditPolicyConfigMap cr),
             .serviceAccountObj (render.apiServerServiceAccount cr),
             .apiServiceObj (render.apiService cr),
             .serviceObj (render.apiServerService cr),
             .clusterRoleObj (render.tieredPolicyPassthruClusterRole cr),
             .clusterRoleBindingObj (render.tieredPolicyPassthruClusterRolebinding cr),
             .clusterRoleBindingObj (render.delegateAuthClusterRoleBinding cr),
             .roleBindingObj (render.authReaderRoleBinding cr)],
      by simp [render.APIServer, h], rfl, rfl, rfl, ?_, rfl, ?_, ?_, rfl, ?_, rfl, ?_, ?_, ?_, ?_⟩ <;>
      simp

theorem c9_apiserver_render_witness :
    (render.APIServer coreCalico = none) ∧
    (∃ objs : List KObject, render.APIServer coreEnterprise = some objs ∧ objs.length = 9) :=
  ⟨(c9_apiserver_render coreCalico).1 (by decide),
   match (c9_apiserver_render coreEnterprise).2 rfl with
   | ⟨objs, h1, h2, _⟩ => ⟨objs, h1, h2⟩⟩
